import Mathlib

/-!
Shallow embedding of the "World of Bits" grid game (final iteration of the
sources: src/unnamed/part_001, with part_000 an earlier copy of the same code
and src/src/main.ts holding two superseded prototypes).

The world-state engine is translated definition by definition:
grid helpers (cellKey, latLngToCell, cellToBounds, cellToCenter), the
procedural base layer (getBaseTokenValue), the override store and effective
state resolver (getEffectiveTokenValue), the interaction gate
(canInteractWithCell), the crafting state machine (handleCellClick,
checkWinCondition), the player position controller (movePlayerBy), the
viewport flyweight manager (updateVisibleCells), reset (resetGame) and the
persistence codec (loadStateFromLocalStorage).

Modelling conventions:
* JavaScript numbers holding grid indices and token values are modelled as
  Int; geographic coordinates are modelled as exact rationals (the original
  uses IEEE-754 doubles).
* A JavaScript Map is modelled as an insertion-ordered association list with
  JS Map.set semantics (replace in place if the key exists, else append).
* The deterministic random source luck (imported from _luck.ts, which is not
  part of the sources) is abstracted: a parameter lucky i j models the test
  luck("i,j,token") < 0.3 of the source.
* DOM/Leaflet side effects (tooltips, panning, status panel) are dropped;
  the status message passed to updateStatusPanel in each branch of
  handleCellClick is kept as the returned String.
-/


/-- Model of a JavaScript `Map<string, number | null>`: an insertion-ordered
association list. Used for the override store `cellOverrides`. -/
abbrev OverrideMap : Type := List (String × Option Int)

/-- JS `Map.get`: first binding for the key, `none` when the key is absent.
The value itself is an `Option Int` (`null` = token removed). -/
def ovGet : OverrideMap → String → Option (Option Int)
  | [], _ => none
  | (k, v) :: rest, key => if key = k then some v else ovGet rest key

/-- JS `Map.set`: replace the binding in place when the key exists, else
append at the end (insertion order preserved). -/
def ovSet : OverrideMap → String → Option Int → OverrideMap
  | [], key, v => [(key, v)]
  | (k, w) :: rest, key, v =>
    if key = k then (key, v) :: rest else (k, w) :: ovSet rest key v

/-- JS `Map.has`. -/
def ovHas (m : OverrideMap) (key : String) : Bool :=
  (ovGet m key).isSome

--
--   CONSTANTS (src/unnamed/part_001 lines 46-66)
--

/-- Starting position latitude (near UCSC). -/
def CLASSROOM_LAT : ℚ := 36.997936938057016

/-- Starting position longitude. -/
def CLASSROOM_LNG : ℚ := -122.05703507501151

/-- Global grid anchor latitude (Null Island). -/
def NULL_ISLAND_LAT : ℚ := 0

/-- Global grid anchor longitude (Null Island). -/
def NULL_ISLAND_LNG : ℚ := 0

/-- Grid cell size in degrees. -/
def TILE_DEGREES : ℚ := 1e-4

/-- Interaction radius in cells. -/
def INTERACTION_RADIUS_CELLS : Int := 3

/-- Win condition threshold. -/
def TARGET_TOKEN_VALUE : Int := 32

--
--   TYPES & STATE (src/unnamed/part_001 lines 74-110)
--

/-- A grid cell `{ i, j }`. -/
structure GridCell where
  i : Int
  j : Int
deriving DecidableEq, Repr

/-- The mutable game state aggregate. -/
structure GameState where
  heldTokenValue : Option Int
  cellOverrides : OverrideMap
  hasWon : Bool
  playerCell : GridCell
deriving DecidableEq, Repr

/-- Movement modes. -/
inductive MovementMode where
  | buttons
  | geolocation
deriving DecidableEq, Repr

--
--   GRID HELPERS (src/unnamed/part_001 lines 125-147)
--

/-- `cellKey(i, j)`: the template string `i,j`. -/
def cellKey (i j : Int) : String :=
  toString i ++ "," ++ toString j

/-- `latLngToCell(pos)`: floor-divide the offset from Null Island by the tile
size, per axis. -/
def latLngToCell (lat lng : ℚ) : GridCell :=
  { i := ⌊(lat - NULL_ISLAND_LAT) / TILE_DEGREES⌋
    j := ⌊(lng - NULL_ISLAND_LNG) / TILE_DEGREES⌋ }

/-- `cellToBounds(cell)`: the rectangle from `(lat, lng)` to
`(lat + TILE, lng + TILE)`, as ((south, west), (north, east)). -/
def cellToBounds (cell : GridCell) : (ℚ × ℚ) × (ℚ × ℚ) :=
  let lat := NULL_ISLAND_LAT + cell.i * TILE_DEGREES
  let lng := NULL_ISLAND_LNG + cell.j * TILE_DEGREES
  ((lat, lng), (lat + TILE_DEGREES, lng + TILE_DEGREES))

/-- `cellToCenter(cell)`. Modelled from the spec: the source delegates to
leaflet's `LatLngBounds.getCenter`, an external-library call; per spec section
4.1, `toCenter` is the midpoint of `toBounds`. -/
def cellToCenter (cell : GridCell) : ℚ × ℚ :=
  let b := cellToBounds cell
  (((b.1).1 + (b.2).1) / 2, ((b.1).2 + (b.2).2) / 2)

/-- `initialPlayerCell = latLngToCell(CLASSROOM_LATLNG)`. -/
def initialPlayerCell : GridCell :=
  latLngToCell CLASSROOM_LAT CLASSROOM_LNG

/-- The initial `gameState` value. -/
def initialGameState : GameState :=
  { heldTokenValue := none
    cellOverrides := []
    hasWon := false
    playerCell := initialPlayerCell }

--
--   TOKEN LOGIC (src/unnamed/part_001 lines 156-174)
--

/-- `getBaseTokenValue(i, j)`. Modelled from the spec: `luck` lives in
_luck.ts, which is not among the sources; per spec section 4.2 it is a pure
deterministic uniform-[0,1) generator, so the comparison
`luck(\x7b i},\x7b j},token) < 0.3` is abstracted as a parameter
`lucky i j : Bool`. A lucky cell holds a value-1 token, others are empty. -/
def getBaseTokenValue (lucky : Int → Int → Bool) (i j : Int) : Option Int :=
  if lucky i j then some 1 else none

/-- `getEffectiveTokenValue(i, j)`: the override entry if one exists
(`Map.has`), else the base value. -/
def getEffectiveTokenValue (lucky : Int → Int → Bool) (s : GameState)
    (i j : Int) : Option Int :=
  match ovGet s.cellOverrides (cellKey i j) with
  | some v => v
  | none => getBaseTokenValue lucky i j

/-- `canInteractWithCell(i, j)`: Chebyshev distance from the player cell is at
most the interaction radius. -/
def canInteractWithCell (s : GameState) (i j : Int) : Bool :=
  decide (max |i - s.playerCell.i| |j - s.playerCell.j| ≤
    INTERACTION_RADIUS_CELLS)

/-- `checkWinCondition()`: if a token is held and reaches the target, set
`hasWon` (the status-panel side effect is dropped). -/
def checkWinCondition (s : GameState) : GameState :=
  match s.heldTokenValue with
  | some v => if v ≥ TARGET_TOKEN_VALUE then { s with hasWon := true } else s
  | none => s

--
--   CELL INTERACTION (src/unnamed/part_001 lines 285-328)
--

/-- `handleCellClick(i, j)`: the pickup / place / craft state machine.
Returns the new game state together with the message passed to
`updateStatusPanel` in the taken branch (display and persistence side effects
are dropped; `checkWinCondition` is applied exactly where the source calls
it). -/
def handleCellClick (lucky : Int → Int → Bool) (i j : Int) (s : GameState) :
    GameState × String :=
  if !(canInteractWithCell s i j) then
    (s, "That cell is too far away.")
  else
    let key := cellKey i j
    let cellValue := getEffectiveTokenValue lucky s i j
    match s.heldTokenValue with
    | none =>
      match cellValue with
      | none => (s, "No token there.")
      | some v =>
        (checkWinCondition
          { s with
            heldTokenValue := some v
            cellOverrides := ovSet s.cellOverrides key none },
          "Picked up a token.")
    | some held =>
      match cellValue with
      | none =>
        ({ s with
            cellOverrides := ovSet s.cellOverrides key (some held)
            heldTokenValue := none },
          "Placed token.")
      | some cv =>
        if cv ≠ held then
          (s, "Token values do not match.")
        else
          (checkWinCondition
            { s with
              heldTokenValue := some (held * 2)
              cellOverrides := ovSet s.cellOverrides key none },
            "Crafted!")

--
--   PLAYER MOVEMENT (src/unnamed/part_001 lines 403-422)
--

/-- `movePlayerBy(di, dj)`: no-op once won, else offset the player cell
(`setPlayerCell`; marker/pan/persistence side effects dropped). -/
def movePlayerBy (di dj : Int) (s : GameState) : GameState :=
  if s.hasWon then s
  else { s with playerCell := { i := s.playerCell.i + di
                                j := s.playerCell.j + dj } }

--
--   VIEWPORT FLYWEIGHT MANAGER (src/unnamed/part_001 lines 356-394)
--

/-- Inclusive integer range `[lo..hi]` (empty when `hi < lo`), modelling the
`for (let x = lo; x <= hi; x++)` loops. -/
def intRange (lo hi : Int) : List Int :=
  (List.range (hi + 1 - lo).toNat).map (fun n => lo + (n : Int))

/-- Session state: the logical game state plus the keys of the currently
materialized visual rectangles (`cellRectangles`; the Leaflet rectangle
objects themselves are dropped, only their keys are kept). -/
structure SessionState where
  game : GameState
  visible : List String
deriving DecidableEq, Repr

/-- `updateVisibleCells()`: destroy every rectangle, recompute the visible
grid from the viewport bounds (south, north, west, east) with floor/ceil, and
recreate one rectangle per cell. The game state (in particular
`cellOverrides`) is not mentioned by the source function; only
`cellRectangles` is rebuilt. -/
def updateVisibleCells (south north west east : ℚ) (s : SessionState) :
    SessionState :=
  let minRow := ⌊(south - NULL_ISLAND_LAT) / TILE_DEGREES⌋
  let maxRow := ⌈(north - NULL_ISLAND_LAT) / TILE_DEGREES⌉
  let minCol := ⌊(west - NULL_ISLAND_LNG) / TILE_DEGREES⌋
  let maxCol := ⌈(east - NULL_ISLAND_LNG) / TILE_DEGREES⌉
  { s with
    visible :=
      (intRange minRow maxRow).flatMap (fun i =>
        (intRange minCol maxCol).map (fun j => cellKey i j)) }

/-- One external stimulus of the session: a cell click, a movement-delta
request, or a viewport-settled notification. -/
inductive SessionAction where
  | click (i j : Int)
  | move (di dj : Int)
  | viewport (south north west east : ℚ)

/-- Dispatch one stimulus to the corresponding handler. Clicks and moves
leave the rectangles to the next `moveend` event; viewport changes only
rebuild rectangles. -/
def stepSession (lucky : Int → Int → Bool) (a : SessionAction)
    (s : SessionState) : SessionState :=
  match a with
  | .click i j => { s with game := (handleCellClick lucky i j s.game).1 }
  | .move di dj => { s with game := movePlayerBy di dj s.game }
  | .viewport south north west east => updateVisibleCells south north west east s

--
--   MOVEMENT MODE + NEW GAME (src/unnamed/part_001 lines 552-572)
--

/-- Full state owned by the movement facade: game state, the current
movement mode, and the kind of the active movement controller (if any). -/
structure FullState where
  game : GameState
  movementMode : MovementMode
  active : Option MovementMode
deriving DecidableEq, Repr

/-- Observable controller lifecycle events emitted by `resetGame`. -/
inductive ControllerEvent where
  | stopped (m : MovementMode)
  | started (m : MovementMode)
deriving DecidableEq, Repr

/-- `resetGame()`: clear persisted storage (external), reset every game-state
field, force the movement mode back to buttons, stop the active controller if
any, and start a fresh `ButtonMovementController`. The returned event list
records the stop/start calls in order. -/
def resetGame (s : FullState) : FullState × List ControllerEvent :=
  let g1 := { s.game with heldTokenValue := none }
  let g2 := { g1 with hasWon := false }
  let g3 := { g2 with cellOverrides := [] }
  let g4 := { g3 with playerCell := initialPlayerCell }
  let stopEvents : List ControllerEvent :=
    match s.active with
    | some m => [ControllerEvent.stopped m]
    | none => []
  ({ game := g4
     movementMode := MovementMode.buttons
     active := some MovementMode.buttons },
   stopEvents ++ [ControllerEvent.started MovementMode.buttons])

--
--   PERSISTENCE (src/unnamed/part_001 lines 240-269)
--

/-- The `heldTokenValue` field of a parsed blob, as the source's
`typeof`-guard sees it: a JSON number, JSON null, or any other value
(string, object, absent...). -/
inductive JHeld where
  | num (n : Int)
  | isNull
  | junk
deriving DecidableEq, Repr

/-- The `cellOverrides` field of a parsed blob: either an array (modelled as
well-formed `[string, number | null]` entry pairs; entries of any other shape
make the original throw inside the destructuring loop, which is outside this
model) or a non-array value (the `Array.isArray` guard fails). -/
inductive JOverrides where
  | arr (entries : List (String × Option Int))
  | notArray
deriving DecidableEq, Repr

/-- The `movementMode` field of a parsed blob: a movement mode, or a nullish
value (absent/null), which the `?? "buttons"` coalescing replaces. -/
inductive JMode where
  | mode (m : MovementMode)
  | nullish
deriving DecidableEq, Repr

/-- A parsed `PersistentState` object as the loader's field accesses see it.
`playerCell` is `some c` when the field holds a (truthy) cell object and
`none` when it is absent or falsy; `hasWon` is the truthiness `!!` of the
stored field. -/
structure Blob where
  heldTokenValue : JHeld
  hasWon : Bool
  playerCell : Option GridCell
  cellOverrides : JOverrides
  movementMode : JMode
deriving DecidableEq, Repr

/-- What `localStorage.getItem` + `JSON.parse` produce: no stored item,
a parse exception, a parsed value that is falsy or has no truthy
`playerCell` property reachable (e.g. a number), or a parsed object. -/
inductive StoredBlob where
  | noItem
  | parseError
  | nonObject
  | obj (b : Blob)
deriving DecidableEq, Repr

/-- `loadStateFromLocalStorage()`: acts on the pair (gameState,
currentMovementMode). Missing item, parse error, falsy parsed value, or
falsy/missing `playerCell` return early leaving the state untouched;
otherwise each field is applied with its own coercion (`typeof` guard for
the held token, `!!` for `hasWon`, `Array.isArray` guard for the overrides
with `clear()` first, `?? "buttons"` for the movement mode). -/
def loadStateFromLocalStorage (stored : StoredBlob)
    (g : GameState × MovementMode) : GameState × MovementMode :=
  match stored with
  | .noItem => g
  | .parseError => g
  | .nonObject => g
  | .obj b =>
    match b.playerCell with
    | none => g
    | some pc =>
      let held : Option Int :=
        match b.heldTokenValue with
        | .num n => some n
        | .isNull => none
        | .junk => none
      let overrides : OverrideMap :=
        match b.cellOverrides with
        | .arr entries => entries.foldl (fun m kv => ovSet m kv.1 kv.2) []
        | .notArray => []
      let mode : MovementMode :=
        match b.movementMode with
        | .mode m => m
        | .nullish => MovementMode.buttons
      ({ heldTokenValue := held
         hasWon := b.hasWon
         playerCell := pc
         cellOverrides := overrides }, mode)

--
--   SPECIFICATION-SIDE DEFINITIONS (from spec.md, for refinement claims)
--

/-- Spec section 4.5 / claim C3: the win predicate, "the held token is
non-empty and its value is at least TARGET", evaluated on the held slot
only. -/
def heldMeetsTarget (held : Option Int) : Bool :=
  match held with
  | some v => decide (v ≥ TARGET_TOKEN_VALUE)
  | none => false

/-- Spec section 4.5, written from the spec's words: "heldToken >= TARGET
=> set hasWon = true". -/
def winEvalSpec (s : GameState) : GameState :=
  if heldMeetsTarget s.heldTokenValue then { s with hasWon := true } else s

/-- Outcome tags of the spec's `onCellClick` transition table. -/
inductive ClickOutcome where
  | tooFar
  | emptyPickup
  | mismatch
  | picked
  | placed
  | crafted
deriving DecidableEq, Repr

/-- The rejected-intent outcomes of the spec's error taxonomy (section 7):
out-of-radius click, empty pickup, mismatched craft. -/
def isRejectedIntent (o : ClickOutcome) : Bool :=
  match o with
  | .tooFar => true
  | .emptyPickup => true
  | .mismatch => true
  | .picked => false
  | .placed => false
  | .crafted => false

/-- The advisory / status message the source displays for each outcome. -/
def outcomeMsg (o : ClickOutcome) : String :=
  match o with
  | .tooFar => "That cell is too far away."
  | .emptyPickup => "No token there."
  | .mismatch => "Token values do not match."
  | .picked => "Picked up a token."
  | .placed => "Placed token."
  | .crafted => "Crafted!"

/-- The spec's transition table for `onCellClick` (spec section 4.5, as
quoted by claim C1), written from the spec's words: empty hand on a cell
with value v picks it up (held becomes v, override set to empty); holding h
on an empty cell places (held becomes empty, override set to h); holding h
on a cell of equal value crafts (held becomes 2*h, override set to empty);
every other case changes nothing. After every transition that changes the
held token the win predicate is evaluated. -/
def specClick (lucky : Int → Int → Bool) (i j : Int) (s : GameState) :
    GameState × ClickOutcome :=
  if ¬ canInteractWithCell s i j then (s, ClickOutcome.tooFar)
  else
    match s.heldTokenValue, getEffectiveTokenValue lucky s i j with
    | none, none => (s, ClickOutcome.emptyPickup)
    | none, some v =>
      (winEvalSpec
        { s with
          heldTokenValue := some v
          cellOverrides := ovSet s.cellOverrides (cellKey i j) none },
       ClickOutcome.picked)
    | some h, none =>
      (winEvalSpec
        { s with
          heldTokenValue := none
          cellOverrides := ovSet s.cellOverrides (cellKey i j) (some h) },
       ClickOutcome.placed)
    | some h, some v =>
      if v = h then
        (winEvalSpec
          { s with
            heldTokenValue := some (2 * h)
            cellOverrides := ovSet s.cellOverrides (cellKey i j) none },
         ClickOutcome.crafted)
      else (s, ClickOutcome.mismatch)

--
--   CONCRETE EXECUTIONS (reachability of states from the initial state)
--

/-- One player stimulus reaching the game state: a cell click or a
directional movement request. -/
inductive GameAction where
  | click (i j : Int)
  | move (di dj : Int)

/-- Run a list of stimuli from a state, dispatching each to the source's
entry points. -/
def runGame (lucky : Int → Int → Bool) (acts : List GameAction)
    (s : GameState) : GameState :=
  acts.foldl
    (fun st a =>
      match a with
      | .click i j => (handleCellClick lucky i j st).1
      | .move di dj => movePlayerBy di dj st)
    s

/-- The initial player cell, computed: floor(36.997936938057016 / 1e-4) =
369979 and floor(-122.05703507501151 / 1e-4) = -1220571. -/
def homeCell : GridCell := { i := 369979, j := -1220571 }

/-- `initialGameState` with the player cell evaluated to its integer
literal (used so that concrete executions reduce by `decide`). -/
def startState : GameState :=
  { heldTokenValue := none
    cellOverrides := []
    hasWon := false
    playerCell := homeCell }

/-- A base layout with a value-1 token in every cell. -/
def luckyAll : Int → Int → Bool := fun _ _ => true

--
--   CLAIM C2: freezing after the win
--

/-- The blob the game itself saves right after a craft reaches the target:
held token 32, `hasWon` true, the crafted cell overridden to empty. Loading
it at session start reproduces the won state. -/
def wonBlob : Blob :=
  { heldTokenValue := JHeld.num 32
    hasWon := true
    playerCell := some homeCell
    cellOverrides := JOverrides.arr [(cellKey homeCell.i homeCell.j, none)]
    movementMode := JMode.mode MovementMode.buttons }

/-- The game state restored from `wonBlob` at session start. -/
def loadedWonState : GameState :=
  (loadStateFromLocalStorage (StoredBlob.obj wonBlob)
    (initialGameState, MovementMode.buttons)).1

/-- A state whose override store records cell (0, 0) as emptied, while the
base layer would put a value-1 token there. -/
def emptiedCellState : GameState :=
  { heldTokenValue := none
    cellOverrides := [(cellKey 0 0, none)]
    hasWon := false
    playerCell := homeCell }

--
--   CLAIM C7: setting the held token while a token is already held
--

/-- A reachable state holding a token: one pickup click from the initial
state (under a base layout with tokens everywhere). -/
def holdingOneState : GameState :=
  runGame luckyAll [GameAction.click homeCell.i (homeCell.j + 1)] startState

--
--   CLAIM C8: all-or-nothing loading
--

/-- A structurally invalid persisted blob: `playerCell` is present and
well-formed but `heldTokenValue` holds a value that is neither a number nor
null. -/
def invalidHeldBlob : Blob :=
  { heldTokenValue := JHeld.junk
    hasWon := false
    playerCell := some { i := 5, j := 6 }
    cellOverrides := JOverrides.arr []
    movementMode := JMode.nullish }

/-- A blob whose `playerCell` field is missing. -/
def noPlayerCellBlob : Blob :=
  { heldTokenValue := JHeld.num 7
    hasWon := true
    playerCell := none
    cellOverrides := JOverrides.arr [(cellKey 1 2, some 4)]
    movementMode := JMode.mode MovementMode.geolocation }

theorem ovGet_ovSet (m : OverrideMap) (k key : String) (v : Option Int) :
    ovGet (ovSet m key v) k = if k = key then some v else ovGet m k := by
  induction m with
  | nil =>
    by_cases h : k = key <;> simp [ovSet, ovGet, h]
  | cons p rest ih =>
    rcases p with ⟨k1, v1⟩
    by_cases hkey : key = k1
    · subst hkey
      by_cases hk : k = key <;> simp [ovSet, ovGet, hk]
    · by_cases hk : k = k1
      · subst hk
        have hne : ¬ k = key := fun h => hkey h.symm
        simp [ovSet, ovGet, hkey, hne]
      · simp [ovSet, ovGet, hkey, hk, ih]

theorem ovGet_ovSet_self (m : OverrideMap) (key : String) (v : Option Int) :
    ovGet (ovSet m key v) key = some v := by
  simp [ovGet_ovSet]

theorem ovHas_ovSet_of_ovHas (m : OverrideMap) (k key : String) (v : Option Int)
    (h : ovHas m k = true) : ovHas (ovSet m key v) k = true := by
  by_cases hk : k = key <;> simp [ovHas, ovGet_ovSet, hk] at h ⊢
  exact h

theorem initialPlayerCell_eq : initialPlayerCell = homeCell := by
  unfold initialPlayerCell latLngToCell homeCell
  unfold CLASSROOM_LAT CLASSROOM_LNG NULL_ISLAND_LAT NULL_ISLAND_LNG TILE_DEGREES
  have h1 : ⌊(36.997936938057016 : ℚ) / (1e-4 : ℚ)⌋ = (369979 : Int) := by
    rw [Int.floor_eq_iff]; norm_num
  have h2 : ⌊(-122.05703507501151 : ℚ) / (1e-4 : ℚ)⌋ = (-1220571 : Int) := by
    rw [Int.floor_eq_iff]; norm_num
  simp [sub_zero, h1, h2]

theorem initialGameState_eq : initialGameState = startState := by
  unfold initialGameState startState
  rw [initialPlayerCell_eq]

--
--   HELPER LEMMAS
--

theorem checkWinCondition_eq_winEvalSpec (s : GameState) :
    checkWinCondition s = winEvalSpec s := by
  unfold checkWinCondition winEvalSpec heldMeetsTarget
  cases h : s.heldTokenValue with
  | none => simp [h]
  | some v => by_cases h32 : v ≥ TARGET_TOKEN_VALUE <;> simp [h, h32]

theorem checkWinCondition_heldTokenValue (s : GameState) :
    (checkWinCondition s).heldTokenValue = s.heldTokenValue := by
  unfold checkWinCondition
  cases h : s.heldTokenValue with
  | none => simp [h]
  | some v => by_cases h32 : v ≥ TARGET_TOKEN_VALUE <;> simp [h, h32]

theorem checkWinCondition_cellOverrides (s : GameState) :
    (checkWinCondition s).cellOverrides = s.cellOverrides := by
  unfold checkWinCondition
  cases h : s.heldTokenValue with
  | none => simp [h]
  | some v => by_cases h32 : v ≥ TARGET_TOKEN_VALUE <;> simp [h, h32]

theorem checkWinCondition_playerCell (s : GameState) :
    (checkWinCondition s).playerCell = s.playerCell := by
  unfold checkWinCondition
  cases h : s.heldTokenValue with
  | none => simp [h]
  | some v => by_cases h32 : v ≥ TARGET_TOKEN_VALUE <;> simp [h, h32]

theorem winEvalSpec_of_none (s : GameState) (h : s.heldTokenValue = none) :
    winEvalSpec s = s := by
  unfold winEvalSpec heldMeetsTarget
  simp [h]

--
--   CLAIM C1: the onCellClick transition table
--

/-- C1: for every game state and clicked cell, `handleCellClick` follows the
spec's transition table exactly (pickup / place / craft as given by
`specClick`, with the matching status message), and in every rejected-intent
case (out-of-radius click, empty pickup, mismatched craft) the game state is
left unchanged. -/
theorem c1_transition_table (lucky : Int → Int → Bool) (i j : Int)
    (s : GameState) :
    handleCellClick lucky i j s =
      ((specClick lucky i j s).1, outcomeMsg (specClick lucky i j s).2) ∧
    (isRejectedIntent (specClick lucky i j s).2 = true →
      (handleCellClick lucky i j s).1 = s) := by
  unfold handleCellClick specClick
  cases hc : canInteractWithCell s i j with
  | false =>
    simp [hc, outcomeMsg, isRejectedIntent]
  | true =>
    cases hheld : s.heldTokenValue with
    | none =>
      cases hcv : getEffectiveTokenValue lucky s i j with
      | none =>
        simp [hc, hheld, hcv, outcomeMsg, isRejectedIntent]
      | some v =>
        simp [hc, hheld, hcv, outcomeMsg, isRejectedIntent,
          checkWinCondition_eq_winEvalSpec]
    | some h =>
      cases hcv : getEffectiveTokenValue lucky s i j with
      | none =>
        have hw : winEvalSpec
            { s with
              heldTokenValue := none
              cellOverrides := ovSet s.cellOverrides (cellKey i j) (some h) } =
            { s with
              heldTokenValue := none
              cellOverrides := ovSet s.cellOverrides (cellKey i j) (some h) } :=
          winEvalSpec_of_none _ rfl
        simp [hc, hheld, hcv, outcomeMsg, isRejectedIntent, hw]
      | some v =>
        by_cases hv : v = h
        · subst hv
          simp [hc, hheld, hcv, outcomeMsg, isRejectedIntent,
            checkWinCondition_eq_winEvalSpec, Int.mul_comm]
        · simp [hc, hheld, hcv, hv, outcomeMsg, isRejectedIntent]

theorem c1_witness :
    isRejectedIntent (specClick luckyAll (homeCell.i + 10) homeCell.j
      startState).2 = true ∧
    (handleCellClick luckyAll (homeCell.i + 10) homeCell.j startState).1 =
      startState :=
  ⟨by decide,
   (c1_transition_table luckyAll (homeCell.i + 10) homeCell.j startState).2
     (by decide)⟩

/-- C2 counterexample: a state with `hasWon = true` (the state the game
saves and reloads after winning: holding 32, standing on the crafted-out
cell) from which `handleCellClick` still changes the game state — the
held 32 token is placed into the empty cell under the player, because
`handleCellClick`, unlike `movePlayerBy`, never tests `hasWon`. -/
theorem c2_counterexample :
    loadedWonState.hasWon = true ∧
    (handleCellClick luckyAll homeCell.i homeCell.j loadedWonState).1 ≠
      loadedWonState := by
  constructor
  · decide
  · decide

/-- C2 amended: after `hasWon` becomes true, `movePlayerBy` is a no-op (the
movement half of the claim); cell clicks are not frozen. -/
theorem c2_movement_frozen_after_win (di dj : Int) (s : GameState)
    (h : s.hasWon = true) : movePlayerBy di dj s = s := by
  unfold movePlayerBy
  simp [h]

theorem c2_witness :
    loadedWonState.hasWon = true ∧
    movePlayerBy 1 0 loadedWonState = loadedWonState :=
  ⟨by decide, c2_movement_frozen_after_win 1 0 loadedWonState (by decide)⟩

--
--   CLAIM C3: the win predicate is evaluated on the held slot only
--

/-- C3: whenever `handleCellClick` changes the held token, the resulting
`hasWon` is the old flag or-ed with the win predicate applied to the new
held slot (non-empty and at least TARGET); cell contents never enter the
predicate. -/
theorem c3_win_predicate_on_held_slot (lucky : Int → Int → Bool) (i j : Int)
    (s : GameState)
    (hchanged : (handleCellClick lucky i j s).1.heldTokenValue ≠
      s.heldTokenValue) :
    (handleCellClick lucky i j s).1.hasWon =
      (s.hasWon ||
        heldMeetsTarget (handleCellClick lucky i j s).1.heldTokenValue) := by
  unfold handleCellClick at *
  cases hc : canInteractWithCell s i j with
  | false => simp [hc] at hchanged
  | true =>
    cases hheld : s.heldTokenValue with
    | none =>
      cases hcv : getEffectiveTokenValue lucky s i j with
      | none => simp [hc, hheld, hcv] at hchanged
      | some v =>
        simp only [hc, hheld, hcv, Bool.not_true, Bool.false_eq_true,
          if_false]
        unfold checkWinCondition heldMeetsTarget
        by_cases h32 : v ≥ TARGET_TOKEN_VALUE <;> simp [h32]
    | some h =>
      cases hcv : getEffectiveTokenValue lucky s i j with
      | none =>
        simp [hc, hheld, hcv, heldMeetsTarget]
      | some v =>
        by_cases hv : v = h
        · subst hv
          simp only [hc, hheld, hcv, Bool.not_true, Bool.false_eq_true,
            if_false]
          unfold checkWinCondition heldMeetsTarget
          by_cases h32 : TARGET_TOKEN_VALUE ≤ v * 2 <;> simp [h32]
        · simp [hc, hheld, hcv, hv] at hchanged

theorem c3_witness :
    (handleCellClick luckyAll homeCell.i (homeCell.j + 1)
      startState).1.heldTokenValue ≠ startState.heldTokenValue ∧
    (handleCellClick luckyAll homeCell.i (homeCell.j + 1)
        startState).1.hasWon =
      (startState.hasWon ||
        heldMeetsTarget (handleCellClick luckyAll homeCell.i (homeCell.j + 1)
          startState).1.heldTokenValue) :=
  ⟨by decide,
   c3_win_predicate_on_held_slot luckyAll homeCell.i (homeCell.j + 1)
     startState (by decide)⟩

--
--   CLAIM C4: effective-value resolution and override-wins
--

/-- C4: `getEffectiveTokenValue` returns the override entry's value whenever
one exists for the cell (including a present-but-empty entry), otherwise the
base value; and immediately after setting the override of a cell to v, the
effective value of that cell is v, whatever the base layer says. -/
theorem c4_effective_value_resolution (lucky : Int → Int → Bool)
    (s : GameState) (i j : Int) :
    (∀ w, ovGet s.cellOverrides (cellKey i j) = some w →
      getEffectiveTokenValue lucky s i j = w) ∧
    (ovGet s.cellOverrides (cellKey i j) = none →
      getEffectiveTokenValue lucky s i j = getBaseTokenValue lucky i j) ∧
    (∀ v, getEffectiveTokenValue lucky
      { s with cellOverrides := ovSet s.cellOverrides (cellKey i j) v }
      i j = v) := by
  refine ⟨?_, ?_, ?_⟩
  · intro w hw
    unfold getEffectiveTokenValue
    simp [hw]
  · intro hnone
    unfold getEffectiveTokenValue
    simp [hnone]
  · intro v
    unfold getEffectiveTokenValue
    simp [ovGet_ovSet_self]

theorem c4_witness :
    getEffectiveTokenValue luckyAll emptiedCellState 0 0 = none ∧
    getBaseTokenValue luckyAll 0 0 = some 1 ∧
    getEffectiveTokenValue luckyAll
      { emptiedCellState with
        cellOverrides := ovSet emptiedCellState.cellOverrides (cellKey 0 0)
          (some 5) } 0 0 = some 5 :=
  ⟨(c4_effective_value_resolution luckyAll emptiedCellState 0 0).1 none
     (by decide),
   by decide,
   (c4_effective_value_resolution luckyAll emptiedCellState 0 0).2.2 (some 5)⟩

--
--   CLAIM C5: overrides survive viewport reconciliation, forever
--

theorem handleCellClick_cellOverrides (lucky : Int → Int → Bool) (i j : Int)
    (s : GameState) :
    (handleCellClick lucky i j s).1.cellOverrides = s.cellOverrides ∨
    ∃ v, (handleCellClick lucky i j s).1.cellOverrides =
      ovSet s.cellOverrides (cellKey i j) v := by
  unfold handleCellClick
  cases hc : canInteractWithCell s i j with
  | false => simp [hc]
  | true =>
    cases hheld : s.heldTokenValue with
    | none =>
      cases hcv : getEffectiveTokenValue lucky s i j with
      | none => simp [hc, hheld, hcv]
      | some v =>
        right
        exact ⟨none, by simp [hc, hheld, hcv, checkWinCondition_cellOverrides]⟩
    | some h =>
      cases hcv : getEffectiveTokenValue lucky s i j with
      | none =>
        right
        exact ⟨some h, by simp [hc, hheld, hcv]⟩
      | some v =>
        by_cases hv : v = h
        · subst hv
          right
          exact ⟨none, by simp [hc, hheld, hcv, checkWinCondition_cellOverrides]⟩
        · left
          simp [hc, hheld, hcv, hv]

/-- C5: no session stimulus ever removes an override entry: once a key is in
the override store it is still there after any click, movement, or viewport
reconciliation; and `updateVisibleCells` (triggered by a viewport change),
which destroys and recreates all visual rectangles, leaves the whole logical
game state — in particular the override store — untouched. -/
theorem c5_overrides_persistent (lucky : Int → Int → Bool)
    (a : SessionAction) (s : SessionState) (k : String)
    (south north west east : ℚ) :
    (ovHas s.game.cellOverrides k = true →
      ovHas (stepSession lucky a s).game.cellOverrides k = true) ∧
    (stepSession lucky (SessionAction.viewport south north west east)
      s).game = s.game := by
  constructor
  · intro hk
    cases a with
    | click i j =>
      rcases handleCellClick_cellOverrides lucky i j s.game with h | ⟨v, h⟩
      · simpa [stepSession, h] using hk
      · simp only [stepSession, h]
        exact ovHas_ovSet_of_ovHas _ _ _ _ hk
    | move di dj =>
      unfold stepSession movePlayerBy
      by_cases hw : s.game.hasWon <;> simpa [hw] using hk
    | viewport so no we ea =>
      simpa [stepSession, updateVisibleCells] using hk
  · simp [stepSession, updateVisibleCells]

theorem c5_witness :
    ovHas emptiedCellState.cellOverrides (cellKey 0 0) = true ∧
    ovHas (stepSession luckyAll (SessionAction.click homeCell.i homeCell.j)
      { game := emptiedCellState, visible := [] }).game.cellOverrides
      (cellKey 0 0) = true :=
  ⟨by decide,
   (c5_overrides_persistent luckyAll
      (SessionAction.click homeCell.i homeCell.j)
      { game := emptiedCellState, visible := [] } (cellKey 0 0)
      0 0 0 0).1 (by decide)⟩

--
--   CLAIM C6: pickup-then-place round trip
--

/-- C6: from an empty hand, clicking an in-radius cell holding v and then
clicking the same cell again restores the cell's effective value to v and
returns the hand to empty. -/
theorem c6_pickup_place_roundtrip (lucky : Int → Int → Bool) (s : GameState)
    (i j v : Int)
    (hcan : canInteractWithCell s i j = true)
    (hheld : s.heldTokenValue = none)
    (hval : getEffectiveTokenValue lucky s i j = some v) :
    getEffectiveTokenValue lucky
      (handleCellClick lucky i j (handleCellClick lucky i j s).1).1 i j =
      some v ∧
    (handleCellClick lucky i j
      (handleCellClick lucky i j s).1).1.heldTokenValue = none := by
  have h1 : (handleCellClick lucky i j s).1 =
      checkWinCondition
        { s with
          heldTokenValue := some v
          cellOverrides := ovSet s.cellOverrides (cellKey i j) none } := by
    unfold handleCellClick
    simp [hcan, hheld, hval]
  set s1 := (handleCellClick lucky i j s).1 with hs1
  have hps : s1.playerCell = s.playerCell := by
    rw [h1, checkWinCondition_playerCell]
  have hh1 : s1.heldTokenValue = some v := by
    rw [h1, checkWinCondition_heldTokenValue]
  have ho1 : s1.cellOverrides = ovSet s.cellOverrides (cellKey i j) none := by
    rw [h1, checkWinCondition_cellOverrides]
  have hcan1 : canInteractWithCell s1 i j = true := by
    unfold canInteractWithCell at hcan ⊢
    rw [hps]
    exact hcan
  have hval1 : getEffectiveTokenValue lucky s1 i j = none := by
    unfold getEffectiveTokenValue
    rw [ho1, ovGet_ovSet_self]
  have h2 : (handleCellClick lucky i j s1).1 =
      { s1 with
        cellOverrides := ovSet s1.cellOverrides (cellKey i j) (some v)
        heldTokenValue := none } := by
    unfold handleCellClick
    simp [hcan1, hh1, hval1]
  constructor
  · rw [h2]
    unfold getEffectiveTokenValue
    simp [ovGet_ovSet_self]
  · rw [h2]

theorem c6_witness :
    getEffectiveTokenValue luckyAll
      (handleCellClick luckyAll homeCell.i (homeCell.j + 1)
        (handleCellClick luckyAll homeCell.i (homeCell.j + 1)
          startState).1).1 homeCell.i (homeCell.j + 1) = some 1 ∧
    (handleCellClick luckyAll homeCell.i (homeCell.j + 1)
      (handleCellClick luckyAll homeCell.i (homeCell.j + 1)
        startState).1).1.heldTokenValue = none :=
  c6_pickup_place_roundtrip luckyAll startState homeCell.i (homeCell.j + 1) 1
    (by decide) (by decide) (by decide)

/-- C7 counterexample: it is not true that a transition never rewrites a
non-empty held slot: from the (reachable) state holding a 1, clicking an
in-radius cell whose effective value is 1 crafts, rewriting `heldTokenValue`
from `some 1` to `some 2` with no intervening empty-handed state. -/
theorem c7_counterexample :
    ¬ (∀ (lucky : Int → Int → Bool) (i j : Int) (s : GameState),
        s.heldTokenValue ≠ none →
        (handleCellClick lucky i j s).1.heldTokenValue = s.heldTokenValue ∨
        (handleCellClick lucky i j s).1.heldTokenValue = none) := by
  intro hclaim
  have h := hclaim luckyAll homeCell.i (homeCell.j + 2) holdingOneState
    (by decide)
  exact absurd h (by decide)

/-- C7 amended: the hand always holds at most one optional token by
construction, and every transition that changes the held slot is a pickup
into an empty hand, a place emptying the hand, or the craft transition,
which is the one transition rewriting a non-empty hand — in place, to the
doubled value, with no second token ever held. -/
theorem c7_hand_transitions_classified (lucky : Int → Int → Bool)
    (i j : Int) (s : GameState)
    (hchanged : (handleCellClick lucky i j s).1.heldTokenValue ≠
      s.heldTokenValue) :
    (s.heldTokenValue = none ∧
      ∃ v, (handleCellClick lucky i j s).1.heldTokenValue = some v) ∨
    (∃ w, s.heldTokenValue = some w ∧
      (handleCellClick lucky i j s).1.heldTokenValue = none) ∨
    (∃ w, s.heldTokenValue = some w ∧
      (handleCellClick lucky i j s).1.heldTokenValue = some (w * 2)) := by
  unfold handleCellClick at *
  cases hc : canInteractWithCell s i j with
  | false => simp [hc] at hchanged
  | true =>
    cases hheld : s.heldTokenValue with
    | none =>
      cases hcv : getEffectiveTokenValue lucky s i j with
      | none => simp [hc, hheld, hcv] at hchanged
      | some v =>
        left
        refine ⟨rfl, v, ?_⟩
        simp [hc, hheld, hcv, checkWinCondition_heldTokenValue]
    | some w =>
      cases hcv : getEffectiveTokenValue lucky s i j with
      | none =>
        right; left
        exact ⟨w, rfl, by simp [hc, hheld, hcv]⟩
      | some v =>
        by_cases hv : v = w
        · subst hv
          right; right
          refine ⟨v, rfl, ?_⟩
          simp [hc, hheld, hcv, checkWinCondition_heldTokenValue]
        · simp [hc, hheld, hcv, hv] at hchanged

theorem c7_witness :
    (startState.heldTokenValue = none ∧
      ∃ v, (handleCellClick luckyAll homeCell.i (homeCell.j + 1)
        startState).1.heldTokenValue = some v) ∨
    (∃ w, startState.heldTokenValue = some w ∧
      (handleCellClick luckyAll homeCell.i (homeCell.j + 1)
        startState).1.heldTokenValue = none) ∨
    (∃ w, startState.heldTokenValue = some w ∧
      (handleCellClick luckyAll homeCell.i (homeCell.j + 1)
        startState).1.heldTokenValue = some (w * 2)) :=
  c7_hand_transitions_classified luckyAll homeCell.i (homeCell.j + 1)
    startState (by decide)

/-- C8 counterexample: loading `invalidHeldBlob` is not discarded whole —
the blob's `playerCell` is applied while the invalid `heldTokenValue` is
individually defaulted to empty, so a structurally invalid, partially-valid
blob IS partially applied rather than replaced by the default state. -/
theorem c8_counterexample :
    loadStateFromLocalStorage (StoredBlob.obj invalidHeldBlob)
      (initialGameState, MovementMode.buttons) ≠
      (initialGameState, MovementMode.buttons) ∧
    (loadStateFromLocalStorage (StoredBlob.obj invalidHeldBlob)
      (initialGameState, MovementMode.buttons)).1.playerCell =
      { i := 5, j := 6 } ∧
    (loadStateFromLocalStorage (StoredBlob.obj invalidHeldBlob)
      (initialGameState, MovementMode.buttons)).1.heldTokenValue = none := by
  refine ⟨?_, rfl, rfl⟩
  intro h
  have hpc := congrArg (fun p => (Prod.fst p).playerCell) h
  simp only [initialGameState, initialPlayerCell_eq] at hpc
  exact absurd hpc (by decide)

/-- C8 amended: the load is all-or-nothing exactly for a missing item, an
unparsable blob, a falsy/non-object parse result, and a missing (falsy)
`playerCell` — those leave the defaults untouched; when a `playerCell` is
present, the load proceeds and applies the fields individually, with
per-field defaults for invalid optional fields (non-number held token
becomes empty, non-array override list becomes the empty store). -/
theorem c8_load_guards (b : Blob) (g : GameState × MovementMode) :
    loadStateFromLocalStorage StoredBlob.noItem g = g ∧
    loadStateFromLocalStorage StoredBlob.parseError g = g ∧
    loadStateFromLocalStorage StoredBlob.nonObject g = g ∧
    (b.playerCell = none →
      loadStateFromLocalStorage (StoredBlob.obj b) g = g) ∧
    (∀ pc, b.playerCell = some pc →
      (loadStateFromLocalStorage (StoredBlob.obj b) g).1.playerCell = pc ∧
      (b.heldTokenValue = JHeld.junk →
        (loadStateFromLocalStorage (StoredBlob.obj b) g).1.heldTokenValue =
          none) ∧
      (b.cellOverrides = JOverrides.notArray →
        (loadStateFromLocalStorage (StoredBlob.obj b) g).1.cellOverrides =
          [])) := by
  refine ⟨rfl, rfl, rfl, ?_, ?_⟩
  · intro hpc
    unfold loadStateFromLocalStorage
    simp [hpc]
  · intro pc hpc
    refine ⟨?_, ?_, ?_⟩
    · unfold loadStateFromLocalStorage
      simp [hpc]
    · intro hjunk
      unfold loadStateFromLocalStorage
      simp [hpc, hjunk]
    · intro harr
      unfold loadStateFromLocalStorage
      simp [hpc, harr]

theorem c8_witness :
    loadStateFromLocalStorage (StoredBlob.obj noPlayerCellBlob)
      (initialGameState, MovementMode.buttons) =
      (initialGameState, MovementMode.buttons) ∧
    (loadStateFromLocalStorage (StoredBlob.obj invalidHeldBlob)
      (initialGameState, MovementMode.buttons)).1.heldTokenValue = none :=
  ⟨(c8_load_guards noPlayerCellBlob
      (initialGameState, MovementMode.buttons)).2.2.2.1 rfl,
   (((c8_load_guards invalidHeldBlob
      (initialGameState, MovementMode.buttons)).2.2.2.2
      { i := 5, j := 6 } rfl).2.1) rfl⟩

--
--   CLAIM C9: cell -> center -> cell round trip
--

theorem floor_half : ⌊(1 / 2 : ℚ)⌋ = 0 := by
  rw [Int.floor_eq_iff]; norm_num

/-- C9: converting a cell to its geographic center and back yields the same
cell: the center is strictly interior, so the floor division returns the
original indices (arithmetic is exact rational arithmetic in this model). -/
theorem c9_center_roundtrip (c : GridCell) :
    latLngToCell (cellToCenter c).1 (cellToCenter c).2 = c := by
  obtain ⟨ci, cj⟩ := c
  unfold latLngToCell cellToCenter cellToBounds
  unfold NULL_ISLAND_LAT NULL_ISLAND_LNG TILE_DEGREES
  have key : ∀ z : Int,
      ⌊((z : ℚ) * 1e-4 + ((z : ℚ) * 1e-4 + 1e-4)) / 2 / (1e-4 : ℚ)⌋ = z := by
    intro z
    have harg :
        ((z : ℚ) * 1e-4 + ((z : ℚ) * 1e-4 + 1e-4)) / 2 / (1e-4 : ℚ) =
          (1 / 2 : ℚ) + (z : ℚ) := by
      norm_num
      ring
    rw [harg, Int.floor_add_int, floor_half, zero_add]
  simp [key ci, key cj]

--
--   CLAIM C10: resetGame reverts the movement mode to buttons
--

/-- C10: whatever the game state, movement mode, and active controller
before the reset, `resetGame` produces the default initial game state with
the movement mode forced back to buttons and a fresh button controller
running, after first stopping whatever controller was active (the emitted
controller events record the stop of the previously active controller, if
any, followed by the start of the new buttons controller). -/
theorem c10_reset_reverts_to_buttons (s : FullState) :
    resetGame s =
      ({ game := initialGameState
         movementMode := MovementMode.buttons
         active := some MovementMode.buttons },
       (match s.active with
        | some m => [ControllerEvent.stopped m]
        | none => []) ++ [ControllerEvent.started MovementMode.buttons]) := by
  unfold resetGame initialGameState
  rfl
